import Mathlib

/-
  Verification of the Cypress-FYUL end-to-end test suite (elmondino/Cypress-FYUL).

  The repository is a browser test suite: its own code consists of support
  files (custom commands, global hooks, an uncaught-exception handler, a
  network-intercept module, a Percy visual-snapshot wrapper), page objects,
  two framework configuration files (cypress.config.ts and cypress.config.js)
  and a static fixture module.

  This file gives a shallow embedding of those support files and proves the
  specification claims about them.  Commands are embedded as pure functions
  that return the sequence of framework calls (events) they issue; stateful
  behaviour (cookies, localStorage, intercept routes) is explicit state
  passing over a browser-state record.  JavaScript member access on the
  object literals used as lookup tables is embedded with its real semantics,
  including members inherited from Object.prototype, because two claims
  quantify over arbitrary string keys.
-/

-- ===========================================================================
-- Shared event alphabet for the embedded Cypress commands
-- ===========================================================================

/-- One framework call (or JavaScript effect) issued by an embedded command.
Each constructor corresponds to a call that occurs literally in the support
files: cy.visit, cy.wait, element click, cy.get, a should assertion, cy.log,
console.error, cy.percySnapshot, and a thrown JavaScript error. -/
inductive CyEvent where
  | visit (url : String)
  | wait (ms : Int)
  | click (selector : String)
  | cyGet (selector : String)
  | shouldBeVisible (selector : String)
  | cyLog (msg : String)
  | consoleError (msg : String)
  | percySnapshot (name : String)
  | throwError (msg : String)
  deriving DecidableEq, Repr

/-- An event that makes the current test fail: only a thrown error does;
logging calls never fail a test. -/
def CyEvent.isFailure : CyEvent → Bool
  | CyEvent.throwError _ => true
  | _ => false

-- ===========================================================================
-- JavaScript string search (String.prototype.includes), used by the
-- uncaught-exception handler of cypress/support/e2e.js
-- ===========================================================================

/-- The characters of the first list appear at the start of the second list. -/
def charsPrefixOf : List Char → List Char → Bool
  | [], _ => true
  | _ :: _, [] => false
  | c :: cs, d :: ds => c == d && charsPrefixOf cs ds

/-- The first list appears as a contiguous run somewhere in the second list. -/
def charsContains (pat : List Char) : List Char → Bool
  | [] => charsPrefixOf pat []
  | c :: rest => charsPrefixOf pat (c :: rest) || charsContains pat rest

/-- JavaScript s.includes(pat). -/
def jsIncludes (s pat : String) : Bool :=
  charsContains pat.toList s.toList

-- ===========================================================================
-- C1: the global uncaught-exception handlers
-- ===========================================================================

/-- The global uncaught-exception handler registered in
cypress/support/e2e.ts (lines 163-170).  It logs the error message with
console.error and then returns false for EVERY error, unconditionally.
The result is the pair (events issued, value returned to the framework);
returning false tells the framework not to fail the test. -/
def tsUncaughtExceptionHandler (errMessage : String) : List CyEvent × Bool :=
  ([CyEvent.consoleError ("Uncaught exception: " ++ errMessage)], false)

/-- The uncaught-exception handler registered in cypress/support/e2e.js
(lines 31-43).  It logs the message, returns false when the message
includes the substring ResizeObserver loop, and returns true otherwise
so that every other error fails the test. -/
def jsUncaughtExceptionHandler (errMessage : String) : List CyEvent × Bool :=
  ([CyEvent.cyLog ("Uncaught exception: " ++ errMessage)],
    if jsIncludes errMessage "ResizeObserver loop" then false else true)

/-- Spec-side predicate, written from the claim text, not from the source:
an uncaught error is recognized as known third-party script noise exactly
when it is one of the ResizeObserver loop errors named by the spec.  It is
used to compare the handlers against the behaviour the claim asserts. -/
def specKnownThirdPartyNoise (errMessage : String) : Bool :=
  jsIncludes errMessage "ResizeObserver loop"

/-- Claim C1 counterexample: the claim says the suite handler suppresses
test failure ONLY for errors recognized as known third-party noise, yet the
e2e.ts handler returns false (suppressing the failure) for an ordinary
application TypeError that is not recognized as third-party noise. -/
theorem tsHandler_suppresses_unknown_error :
    (tsUncaughtExceptionHandler "TypeError: x is not a function").2 = false ∧
    specKnownThirdPartyNoise "TypeError: x is not a function" = false := by
  decide

/-- Claim C1, amended: the e2e.ts handler returns false for every uncaught
error, suppressing all of them, while the e2e.js handler returns false
exactly for the errors recognized as known third-party noise (messages
containing ResizeObserver loop) and lets every other error fail the test. -/
theorem uncaughtException_handler_behaviour (errMessage : String) :
    (tsUncaughtExceptionHandler errMessage).2 = false ∧
    ((jsUncaughtExceptionHandler errMessage).2 = false ↔
      specKnownThirdPartyNoise errMessage = true) := by
  refine ⟨rfl, ?_⟩
  unfold jsUncaughtExceptionHandler specKnownThirdPartyNoise
  cases h : jsIncludes errMessage "ResizeObserver loop" <;> simp [h]

-- ===========================================================================
-- C7: configured test-level retry counts
-- ===========================================================================

/-- The retries entry of a framework configuration file: the retry count in
run mode (CLI / CI runs) and in open mode (interactive runs). -/
structure RetryConfig where
  runMode : Nat
  openMode : Nat
  deriving DecidableEq, Repr

/-- cypress.config.ts lines 248-251: runMode 2, openMode 0. -/
def tsConfigRetries : RetryConfig := ⟨2, 0⟩

/-- cypress.config.js lines 21-24: runMode 2, openMode 0. -/
def jsConfigRetries : RetryConfig := ⟨2, 0⟩

/-- Modelled from the spec: the host framework's test-level retry engine is
not part of this repository.  Per the framework documentation the spec
relies on, a test is attempted once and, while it keeps failing, re-attempted
until the configured retry count is exhausted.  The arguments are the pass
oracle for each attempt, the index of the current attempt, and the number of
retries still allowed; the result is (total attempts used, final verdict). -/
def runAttempts (passes : Nat → Bool) (attempt : Nat) : Nat → Nat × Bool
  | 0 => (attempt + 1, passes attempt)
  | remaining + 1 =>
    if passes attempt then (attempt + 1, true)
    else runAttempts passes (attempt + 1) remaining

/-- Running one test under a configured retry allowance. -/
def runTestWithRetries (allowedRetries : Nat) (passes : Nat → Bool) : Nat × Bool :=
  runAttempts passes 0 allowedRetries

/-- The total number of attempts never exceeds one more than the allowance. -/
theorem runAttempts_le (passes : Nat → Bool) (remaining attempt : Nat) :
    (runAttempts passes attempt remaining).1 ≤ attempt + remaining + 1 := by
  induction remaining generalizing attempt with
  | zero => simp [runAttempts]
  | succ r ih =>
    unfold runAttempts
    by_cases h : passes attempt = true
    · simp [h]
    · simp [h]
      calc (runAttempts passes (attempt + 1) r).1 ≤ attempt + 1 + r + 1 := ih (attempt + 1)
        _ ≤ attempt + (r + 1) + 1 := by omega

/-- Claim C7: both configuration files set the retry count to 2 in run mode
and 0 in open mode; consequently a test that fails in open mode is never
retried (exactly one attempt), a test in run mode is attempted at most three
times (at most 2 retries), and a run-mode test that fails twice and then
passes ends up passing. -/
theorem retries_configuration (passes : Nat → Bool) (hfail : passes 0 = false) :
    tsConfigRetries.runMode = 2 ∧ tsConfigRetries.openMode = 0 ∧
    jsConfigRetries.runMode = 2 ∧ jsConfigRetries.openMode = 0 ∧
    runTestWithRetries tsConfigRetries.openMode passes = (1, false) ∧
    (runTestWithRetries tsConfigRetries.runMode passes).1 ≤ 3 ∧
    runTestWithRetries tsConfigRetries.runMode (fun n => n == 2) = (3, true) := by
  refine ⟨rfl, rfl, rfl, rfl, ?_, ?_, by decide⟩
  · simp [runTestWithRetries, tsConfigRetries, runAttempts, hfail]
  · exact runAttempts_le passes 2 0

/-- Witness for C7 at a concrete always-failing test. -/
theorem retries_configuration_witness :
    runTestWithRetries tsConfigRetries.openMode (fun _ => false) = (1, false) ∧
    (runTestWithRetries tsConfigRetries.runMode (fun _ => false)).1 ≤ 3 := by
  have h := retries_configuration (fun _ => false) rfl
  exact ⟨h.2.2.2.2.1, h.2.2.2.2.2.1⟩

-- ===========================================================================
-- C2: repository-implemented retry helpers
-- ===========================================================================

/-- JavaScript v || d for an optional numeric option: an absent value and 0
are falsy, every other number is kept. -/
def jsOrDefaultNat (v : Option Nat) (dflt : Nat) : Nat :=
  match v with
  | none => dflt
  | some n => if n = 0 then dflt else n

/-- The options object accepted by cy.visitWithRetry: retries (default 3)
and timeout (default 30000). -/
structure VisitRetryOptions where
  retries : Option Nat
  timeout : Option Int
  deriving Repr

/-- cypress/support/commands.js lines 14-22, attemptVisit: issue cy.visit;
when a response arrived (the status oracle gives the status of the
attemptNumber-th visit; none models a visit that resolves without a
response object), and its status is at least 400 while attempts remain,
log, cy.wait(2000) and recurse with the next attempt number. -/
def attemptVisit (url : String) (status : Nat → Option Int) (maxRetries : Nat)
    (attemptNumber : Nat) : List CyEvent :=
  CyEvent.visit url ::
    (match status attemptNumber with
     | none => []
     | some st =>
       if h : 400 ≤ st ∧ attemptNumber < maxRetries then
         CyEvent.cyLog ("Visit failed with status " ++ toString st ++ ", retrying... (" ++
             toString attemptNumber ++ "/" ++ toString maxRetries ++ ")") ::
           CyEvent.wait 2000 :: attemptVisit url status maxRetries (attemptNumber + 1)
       else [])
termination_by maxRetries - attemptNumber
decreasing_by omega

/-- cypress/support/commands.js lines 10-25, cy.visitWithRetry: read the
options with their JavaScript || defaults and start at attempt 1. -/
def visitWithRetry (url : String) (status : Nat → Option Int)
    (options : VisitRetryOptions) : List CyEvent :=
  attemptVisit url status (jsOrDefaultNat options.retries 3) 1

/-- The options object accepted by cy.clickWithRetry: maxAttempts
(default 3) and timeout (default 5000). -/
structure ClickRetryOptions where
  maxAttempts : Option Nat
  timeout : Option Int
  deriving Repr

/-- cypress/support/commands.js lines 71-87, attemptClick: past the attempt
budget, throw; otherwise cy.get the selector, assert visibility, click, and
when the click throws (the clickThrows oracle), log, cy.wait(1000) and
recurse with the next attempt number. -/
def attemptClick (selector : String) (clickThrows : Nat → Bool) (maxAttempts : Nat)
    (attempt : Nat) : List CyEvent :=
  if h : attempt > maxAttempts then
    [CyEvent.throwError ("Failed to click " ++ selector ++ " after " ++
      toString maxAttempts ++ " attempts")]
  else
    CyEvent.cyGet selector :: CyEvent.shouldBeVisible selector :: CyEvent.click selector ::
      (if clickThrows attempt then
        CyEvent.cyLog ("Click attempt " ++ toString attempt ++ " failed, retrying...") ::
          CyEvent.wait 1000 :: attemptClick selector clickThrows maxAttempts (attempt + 1)
      else [])
termination_by maxAttempts + 1 - attempt
decreasing_by omega

/-- cypress/support/commands.js lines 67-90, cy.clickWithRetry. -/
def clickWithRetry (selector : String) (clickThrows : Nat → Bool)
    (options : ClickRetryOptions) : List CyEvent :=
  attemptClick selector clickThrows (jsOrDefaultNat options.maxAttempts 3) 1

/-- cypress/support/visual.ts helper-utilities section, lines 153-169,
retryWithBackoff's inner attempt closure: when the action rejects (the
actionThrows oracle) and retries remain, wait baseDelay times 2 to the
power of the current retry counter, bump the counter and try again;
when the budget is exhausted, rethrow the action's error. -/
def retryBackoffAttempt (actionThrows : Nat → Bool) (actionError : String)
    (maxRetries : Nat) (baseDelay : Int) (retries : Nat) : List CyEvent × Bool :=
  if actionThrows retries then
    if h : retries < maxRetries then
      let r := retryBackoffAttempt actionThrows actionError maxRetries baseDelay (retries + 1)
      (CyEvent.wait (baseDelay * 2 ^ retries) :: r.1, r.2)
    else ([CyEvent.throwError actionError], false)
  else ([], true)
termination_by maxRetries - retries
decreasing_by omega

/-- cypress/support/visual.ts lines 153-169, retryWithBackoff with its
default parameters maxRetries = 3 and baseDelay = 1000 made explicit. -/
def retryWithBackoff (actionThrows : Nat → Bool) (actionError : String)
    (maxRetries : Nat) (baseDelay : Int) : List CyEvent × Bool :=
  retryBackoffAttempt actionThrows actionError maxRetries baseDelay 0

/-- Claim C2 counterexample: the claim says no command or helper of the
repository implements a retry loop or backoff logic of its own, yet
visitWithRetry (commands.js lines 10-25) is such a loop: against a server
that keeps answering 500 it issues three cy.visit calls with
repository-coded 2000 ms waits between them. -/
theorem visitWithRetry_is_a_retry_loop :
    (visitWithRetry "/" (fun _ => some 500) ⟨none, none⟩).count (CyEvent.visit "/") = 3 ∧
    CyEvent.wait 2000 ∈ visitWithRetry "/" (fun _ => some 500) ⟨none, none⟩ := by
  have h : visitWithRetry "/" (fun _ => some 500) ⟨none, none⟩ =
      [CyEvent.visit "/",
       CyEvent.cyLog ("Visit failed with status " ++ toString (500 : Int) ++
         ", retrying... (" ++ toString (1 : Nat) ++ "/" ++ toString (3 : Nat) ++ ")"),
       CyEvent.wait 2000,
       CyEvent.visit "/",
       CyEvent.cyLog ("Visit failed with status " ++ toString (500 : Int) ++
         ", retrying... (" ++ toString (2 : Nat) ++ "/" ++ toString (3 : Nat) ++ ")"),
       CyEvent.wait 2000,
       CyEvent.visit "/"] := by
    simp [visitWithRetry, jsOrDefaultNat, attemptVisit]
  rw [h]
  decide

/-- Claim C2, amended: the repository does implement retry loops and backoff
logic of its own, in exactly three helpers.  visitWithRetry retries failed
visits (status at least 400) up to options.retries (default 3) attempts with
fixed 2000 ms waits; clickWithRetry retries a throwing click up to
options.maxAttempts (default 3) attempts with fixed 1000 ms waits and then
throws; retryWithBackoff retries a rejecting action with exponentially
growing delays baseDelay times 2 to the retry count (1000, 2000, 4000 ms at
the defaults) and finally rethrows.  All other failure handling in the suite
reduces to framework-provided options. -/
theorem repository_retry_helpers :
    visitWithRetry "/" (fun _ => some 503) ⟨some 2, none⟩ =
      [CyEvent.visit "/",
       CyEvent.cyLog ("Visit failed with status " ++ toString (503 : Int) ++
         ", retrying... (" ++ toString (1 : Nat) ++ "/" ++ toString (2 : Nat) ++ ")"),
       CyEvent.wait 2000,
       CyEvent.visit "/"] ∧
    clickWithRetry "nav a" (fun _ => true) ⟨none, none⟩ =
      [CyEvent.cyGet "nav a", CyEvent.shouldBeVisible "nav a", CyEvent.click "nav a",
       CyEvent.cyLog ("Click attempt " ++ toString (1 : Nat) ++ " failed, retrying..."),
       CyEvent.wait 1000,
       CyEvent.cyGet "nav a", CyEvent.shouldBeVisible "nav a", CyEvent.click "nav a",
       CyEvent.cyLog ("Click attempt " ++ toString (2 : Nat) ++ " failed, retrying..."),
       CyEvent.wait 1000,
       CyEvent.cyGet "nav a", CyEvent.shouldBeVisible "nav a", CyEvent.click "nav a",
       CyEvent.cyLog ("Click attempt " ++ toString (3 : Nat) ++ " failed, retrying..."),
       CyEvent.wait 1000,
       CyEvent.throwError ("Failed to click nav a after " ++ toString (3 : Nat) ++ " attempts")] ∧
    retryWithBackoff (fun _ => true) "network down" 3 1000 =
      ([CyEvent.wait 1000, CyEvent.wait 2000, CyEvent.wait 4000,
        CyEvent.throwError "network down"], false) := by
  refine ⟨?_, ?_, ?_⟩
  · simp [visitWithRetry, jsOrDefaultNat, attemptVisit]
  · simp [clickWithRetry, jsOrDefaultNat, attemptClick]
  · simp [retryWithBackoff, retryBackoffAttempt]

-- ===========================================================================
-- JavaScript member access on object literals used as lookup tables
-- ===========================================================================

/-- The member names every plain JavaScript object literal inherits from
Object.prototype.  Indexing an object literal with one of these names yields
the inherited member (a truthy function, or the prototype object itself for
the last name), not undefined. -/
def objectPrototypeMemberNames : List String :=
  ["constructor", "hasOwnProperty", "isPrototypeOf", "propertyIsEnumerable",
   "toLocaleString", "toString", "valueOf", "__defineGetter__", "__defineSetter__",
   "__lookupGetter__", "__lookupSetter__", "__proto__"]

/-- First own property of an object literal with the given key. -/
def assocLookup {α : Type} : List (String × α) → String → Option α
  | [], _ => none
  | f :: rest, k => if f.1 = k then some f.2 else assocLookup rest k

/-- A key that differs from every own property key looks up to none. -/
theorem assocLookup_eq_none {α : Type} (fields : List (String × α)) (k : String)
    (h : ∀ f ∈ fields, f.1 ≠ k) : assocLookup fields k = none := by
  induction fields with
  | nil => rfl
  | cons f rest ih =>
    unfold assocLookup
    rw [if_neg (h f (List.mem_cons_self f rest))]
    exact ih fun g hg => h g (List.mem_cons_of_mem f hg)

/-- Result of JavaScript member access obj[k] on an object literal whose own
property values all have type α: an own value, a member inherited from
Object.prototype, or undefined. -/
inductive JSLookup (α : Type) where
  | ownValue (v : α)
  | inheritedMember (name : String)
  | undefinedResult
  deriving DecidableEq, Repr

/-- JavaScript obj[k]: own properties first, then the prototype chain,
then undefined. -/
def jsMemberLookup {α : Type} (fields : List (String × α)) (k : String) : JSLookup α :=
  match assocLookup fields k with
  | some v => JSLookup.ownValue v
  | none =>
    if k ∈ objectPrototypeMemberNames then JSLookup.inheritedMember k
    else JSLookup.undefinedResult

/-- JavaScript truthiness of a lookup result.  Own values in both tables
embedded below are non-null objects or arrays, which are always truthy in
JavaScript; inherited Object.prototype members are functions or the
prototype object, also truthy; undefined is falsy. -/
def JSLookup.truthy {α : Type} : JSLookup α → Bool
  | JSLookup.ownValue _ => true
  | JSLookup.inheritedMember _ => true
  | JSLookup.undefinedResult => false

-- ===========================================================================
-- C6: base-URL selection in cypress.config.ts
-- ===========================================================================

/-- One entry of the environments table of cypress.config.ts. -/
structure EnvConfig where
  baseUrl : String
  apiUrl : String
  deriving DecidableEq, Repr

/-- cypress.config.ts lines 60-73: the environments object literal. -/
def environments : List (String × EnvConfig) :=
  [("production", ⟨"https://www.fyul.com", "https://api.fyul.com"⟩),
   ("staging", ⟨"https://staging.fyul.com", "https://api-staging.fyul.com"⟩),
   ("development", ⟨"http://localhost:3000", "http://localhost:4000"⟩)]

/-- cypress.config.ts line 85: process.env.CYPRESS_ENV || 'production'.
The argument is none when the variable is unset; the empty string is the
only falsy string, so it also falls back to 'production'. -/
def selectedEnvName (cypressEnv : Option String) : String :=
  match cypressEnv with
  | none => "production"
  | some s => if s = "" then "production" else s

/-- cypress.config.ts line 91: environments[env] || environments.production. -/
def envConfigLookup (cypressEnv : Option String) : JSLookup EnvConfig :=
  let l := jsMemberLookup environments (selectedEnvName cypressEnv)
  if l.truthy then l else jsMemberLookup environments "production"

/-- The value of the baseUrl property of the selected configuration, as
used at cypress.config.ts line 131.  Reading baseUrl off an inherited
Object.prototype member yields undefined, since those members have no
baseUrl property. -/
inductive ConfigBaseUrl where
  | url (s : String)
  | undefinedBaseUrl
  deriving DecidableEq, Repr

/-- envConfig.baseUrl for a given value of CYPRESS_ENV. -/
def configuredBaseUrl (cypressEnv : Option String) : ConfigBaseUrl :=
  match envConfigLookup cypressEnv with
  | JSLookup.ownValue cfg => ConfigBaseUrl.url cfg.baseUrl
  | JSLookup.inheritedMember _ => ConfigBaseUrl.undefinedBaseUrl
  | JSLookup.undefinedResult => ConfigBaseUrl.undefinedBaseUrl

/-- Claim C6 counterexample: the claim says every value of CYPRESS_ENV other
than the three named ones selects the production configuration, but
CYPRESS_ENV=constructor selects the member environments inherit from
Object.prototype: it is truthy, the || fallback is skipped, and the
resulting configuration has no baseUrl at all. -/
theorem cypressEnv_constructor_breaks_fallback :
    configuredBaseUrl (some "constructor") = ConfigBaseUrl.undefinedBaseUrl ∧
    configuredBaseUrl (some "constructor") ≠ ConfigBaseUrl.url "https://www.fyul.com" := by
  decide

/-- Claim C6, amended: CYPRESS_ENV=production, staging and development map to
their configured base URLs; the unset variable and every other value that is
not the name of a member inherited from Object.prototype fall back to the
production base URL https://www.fyul.com; for an inherited member name such
as constructor the selected configuration has an undefined baseUrl. -/
theorem baseUrl_environment_selection (s : String)
    (hown : s ∉ ["production", "staging", "development"])
    (hproto : s ∉ objectPrototypeMemberNames) :
    configuredBaseUrl (some "production") = ConfigBaseUrl.url "https://www.fyul.com" ∧
    configuredBaseUrl (some "staging") = ConfigBaseUrl.url "https://staging.fyul.com" ∧
    configuredBaseUrl (some "development") = ConfigBaseUrl.url "http://localhost:3000" ∧
    configuredBaseUrl none = ConfigBaseUrl.url "https://www.fyul.com" ∧
    configuredBaseUrl (some s) = ConfigBaseUrl.url "https://www.fyul.com" := by
  refine ⟨by decide, by decide, by decide, by decide, ?_⟩
  simp only [List.mem_cons, List.not_mem_nil, or_false, not_or] at hown
  obtain ⟨h1, h2, h3⟩ := hown
  by_cases hs : s = ""
  · subst hs; decide
  · unfold configuredBaseUrl envConfigLookup selectedEnvName jsMemberLookup
    simp only [if_neg hs]
    rw [assocLookup_eq_none environments s (by
      intro f hf
      simp only [environments, List.mem_cons, List.not_mem_nil, or_false] at hf
      rcases hf with rfl | rfl | rfl
      · exact fun hh => h1 hh.symm
      · exact fun hh => h2 hh.symm
      · exact fun hh => h3 hh.symm)]
    simp [hproto, JSLookup.truthy, assocLookup, environments]

/-- Witness for the amended C6 at the concrete unknown value qa. -/
theorem baseUrl_environment_selection_witness :
    configuredBaseUrl (some "qa") = ConfigBaseUrl.url "https://www.fyul.com" :=
  (baseUrl_environment_selection "qa" (by decide) (by decide)).2.2.2.2

-- ===========================================================================
-- C10: the cy.setViewport command of cypress/support/e2e.js
-- ===========================================================================

/-- cypress/support/e2e.js lines 47-52: the viewports object literal; each
value is the two-element array of width and height. -/
def viewportPresets : List (String × (Int × Int)) :=
  [("mobile", (375, 667)),
   ("tablet", (768, 1024)),
   ("desktop", (1920, 1080)),
   ("4k", (3840, 2160))]

/-- Outcome of running cy.setViewport: either cy.viewport is called with a
width and height, or the command throws a TypeError because array
destructuring was applied to a non-iterable value. -/
inductive ViewportOutcome where
  | set (width height : Int)
  | typeError
  deriving DecidableEq, Repr

/-- cypress/support/e2e.js lines 46-56, cy.setViewport:
const [width, height] = viewports[device] || viewports.desktop, then
cy.viewport(width, height).  An own entry destructures into its width and
height; a member inherited from Object.prototype (for device names such as
constructor) is truthy, so the || fallback is skipped, and destructuring a
function or the prototype object throws a TypeError because it is not
iterable. -/
def setViewport (device : String) : ViewportOutcome :=
  let l := jsMemberLookup viewportPresets device
  let chosen := if l.truthy then l else jsMemberLookup viewportPresets "desktop"
  match chosen with
  | JSLookup.ownValue (w, h) => ViewportOutcome.set w h
  | JSLookup.inheritedMember _ => ViewportOutcome.typeError
  | JSLookup.undefinedResult => ViewportOutcome.typeError

/-- Claim C10 counterexample: the claim says setViewport is total over all
string inputs and falls back to 1920x1080 for every input outside the four
device names, but device=constructor hits the member viewports inherit from
Object.prototype: it is truthy, the fallback is skipped, and destructuring
it throws a TypeError instead of setting the desktop viewport. -/
theorem setViewport_constructor_throws :
    setViewport "constructor" = ViewportOutcome.typeError ∧
    setViewport "constructor" ≠ ViewportOutcome.set 1920 1080 := by
  decide

/-- Claim C10, amended: the four configured device names map to their
configured dimensions, and every other input that is not the name of a
member inherited from Object.prototype falls back to the desktop dimensions
1920x1080; for an inherited member name such as constructor the command
throws a TypeError. -/
theorem setViewport_total_outside_prototype (device : String)
    (hown : device ∉ ["mobile", "tablet", "desktop", "4k"])
    (hproto : device ∉ objectPrototypeMemberNames) :
    setViewport "mobile" = ViewportOutcome.set 375 667 ∧
    setViewport "tablet" = ViewportOutcome.set 768 1024 ∧
    setViewport "desktop" = ViewportOutcome.set 1920 1080 ∧
    setViewport "4k" = ViewportOutcome.set 3840 2160 ∧
    setViewport device = ViewportOutcome.set 1920 1080 := by
  refine ⟨by decide, by decide, by decide, by decide, ?_⟩
  simp only [List.mem_cons, List.not_mem_nil, or_false, not_or] at hown
  obtain ⟨h1, h2, h3, h4⟩ := hown
  unfold setViewport jsMemberLookup
  rw [assocLookup_eq_none viewportPresets device (by
    intro f hf
    simp only [viewportPresets, List.mem_cons, List.not_mem_nil, or_false] at hf
    rcases hf with rfl | rfl | rfl | rfl
    · exact fun hh => h1 hh.symm
    · exact fun hh => h2 hh.symm
    · exact fun hh => h3 hh.symm
    · exact fun hh => h4 hh.symm)]
  simp [hproto, JSLookup.truthy, assocLookup, viewportPresets]

/-- Witness for the amended C10 at the concrete unknown device name laptop. -/
theorem setViewport_total_outside_prototype_witness :
    setViewport "laptop" = ViewportOutcome.set 1920 1080 :=
  (setViewport_total_outside_prototype "laptop" (by decide) (by decide)).2.2.2.2

-- ===========================================================================
-- Glob (minimatch-style) URL patterns used by cy.intercept
-- ===========================================================================

/-- Fuel-indexed glob matcher over character lists: a double star matches any
run of characters, a single star matches any run of characters other than the
path separator, every other character matches itself.  Every recursive call
shrinks the combined length of pattern and subject, so the fuel used by
globMatch below is never exhausted. -/
def globMatchAux : Nat → List Char → List Char → Bool
  | 0, _, _ => false
  | fuel + 1, p, s =>
    match p, s with
    | [], [] => true
    | [], _ :: _ => false
    | '*' :: '*' :: ps, s2 =>
      globMatchAux fuel ps s2 ||
        (match s2 with
         | [] => false
         | _ :: ss => globMatchAux fuel ('*' :: '*' :: ps) ss)
    | '*' :: ps, s2 =>
      globMatchAux fuel ps s2 ||
        (match s2 with
         | [] => false
         | c :: ss => (c != '/') && globMatchAux fuel ('*' :: ps) ss)
    | _ :: _, [] => false
    | c :: ps, d :: ss => (c == d) && globMatchAux fuel ps ss

/-- Glob matching with sufficient fuel. -/
def globMatch (p s : List Char) : Bool :=
  globMatchAux (p.length + s.length + 1) p s

-- ===========================================================================
-- The network-intercept module (src/unnamed/part_015, intercepts.ts)
-- ===========================================================================

/-- The stub body of a static intercept response: the JSON object or string
literal written in the cy.intercept call. -/
inductive StubBody where
  | jsonObject (fields : List (String × String))
  | text (s : String)
  deriving DecidableEq, Repr

/-- A body with no content: the empty JSON object or the empty string. -/
def StubBody.isEmpty : StubBody → Bool
  | StubBody.jsonObject [] => true
  | StubBody.text "" => true
  | _ => false

/-- The static response passed to one cy.intercept call. -/
structure StaticResponse where
  statusCode : Nat
  body : StubBody
  deriving DecidableEq, Repr

/-- One installed intercept: its URL pattern, its static response, and the
alias given with .as(...). -/
structure InterceptRule where
  pattern : String
  response : StaticResponse
  aliasName : String
  deriving DecidableEq, Repr

/-- intercepts.setupDefaults (src/unnamed/part_015 lines 62-73): the seven
cy.intercept calls, in source order.  The analytics and gtag stubs answer
with the empty JSON object; the remaining five answer with the empty
string. -/
def defaultIntercepts : List InterceptRule :=
  [⟨"**/analytics/**", ⟨200, StubBody.jsonObject []⟩, "analytics"⟩,
   ⟨"**/gtag/**", ⟨200, StubBody.jsonObject []⟩, "gtag"⟩,
   ⟨"**/gtm.js", ⟨200, StubBody.text ""⟩, "gtm"⟩,
   ⟨"**/googletagmanager.com/**", ⟨200, StubBody.text ""⟩, "googleTagManager"⟩,
   ⟨"**/google-analytics.com/**", ⟨200, StubBody.text ""⟩, "googleAnalytics"⟩,
   ⟨"**/facebook.net/**", ⟨200, StubBody.text ""⟩, "facebook"⟩,
   ⟨"**/connect.facebook.net/**", ⟨200, StubBody.text ""⟩, "facebookConnect"⟩]

-- ===========================================================================
-- Browser state and the global beforeEach hook (C4)
-- ===========================================================================

/-- The browser state a test observes: cookies, localStorage entries, and
the intercept routes installed so far. -/
structure BrowserState where
  cookies : List (String × String)
  localStorageEntries : List (String × String)
  interceptRules : List InterceptRule
  deriving DecidableEq, Repr

/-- cy.clearCookies(): remove every cookie. -/
def clearCookiesCmd (s : BrowserState) : BrowserState :=
  { s with cookies := [] }

/-- cy.clearLocalStorage(): remove every localStorage entry. -/
def clearLocalStorageCmd (s : BrowserState) : BrowserState :=
  { s with localStorageEntries := [] }

/-- cy.intercept(pattern, staticResponse): install one route.  A route
defined later takes precedence over earlier ones, so the newest rule sits at
the head of the list. -/
def installIntercept (r : InterceptRule) (s : BrowserState) : BrowserState :=
  { s with interceptRules := r :: s.interceptRules }

/-- cy.setupIntercepts (src/unnamed/part_015 lines 123-125): runs
intercepts.setupDefaults, installing the seven default rules in source
order. -/
def setupInterceptsCmd (s : BrowserState) : BrowserState :=
  defaultIntercepts.foldl (fun st r => installIntercept r st) s

/-- The three commands of the global beforeEach hook of e2e.ts. -/
inductive HookStep where
  | clearCookiesStep
  | clearLocalStorageStep
  | setupInterceptsStep
  deriving DecidableEq, Repr

/-- Interpreting one hook step on the browser state. -/
def execHookStep : HookStep → BrowserState → BrowserState
  | HookStep.clearCookiesStep, s => clearCookiesCmd s
  | HookStep.clearLocalStorageStep, s => clearLocalStorageCmd s
  | HookStep.setupInterceptsStep, s => setupInterceptsCmd s

/-- cypress/support/e2e.ts lines 92-133: the body of the global beforeEach
hook, in source order: cy.clearCookies(); cy.clearLocalStorage();
cy.setupIntercepts(). -/
def globalBeforeEachSteps : List HookStep :=
  [HookStep.clearCookiesStep, HookStep.clearLocalStorageStep, HookStep.setupInterceptsStep]

/-- Running the global beforeEach hook. -/
def runGlobalBeforeEach (s : BrowserState) : BrowserState :=
  globalBeforeEachSteps.foldl (fun st step => execHookStep step st) s

/-- Modelled from the spec: the host framework, not repository code,
resets the routes installed by cy.intercept between tests. -/
def startTestState (s : BrowserState) : BrowserState :=
  { s with interceptRules := [] }

/-- Modelled from the spec: the host framework runs the registered global
beforeEach hook before every test of the suite.  Given the test bodies in
order and the initial browser state, this returns the state in which each
test body starts. -/
def statesSeenByTests (tests : List (BrowserState → BrowserState)) (s : BrowserState) :
    List BrowserState :=
  match tests with
  | [] => []
  | t :: rest =>
    let s1 := runGlobalBeforeEach (startTestState s)
    s1 :: statesSeenByTests rest (t s1)

/-- Installing a list of rules only prepends the reversed list to the
installed routes. -/
theorem foldl_install_rules (l : List InterceptRule) (s : BrowserState) :
    (l.foldl (fun st r => installIntercept r st) s).interceptRules =
      l.reverse ++ s.interceptRules := by
  induction l generalizing s with
  | nil => simp
  | cons r rest ih =>
    simp only [List.foldl_cons, List.reverse_cons]
    rw [ih]
    simp [installIntercept, List.append_assoc]

/-- Installing rules does not touch cookies or localStorage. -/
theorem foldl_install_cookies (l : List InterceptRule) (s : BrowserState) :
    (l.foldl (fun st r => installIntercept r st) s).cookies = s.cookies ∧
    (l.foldl (fun st r => installIntercept r st) s).localStorageEntries =
      s.localStorageEntries := by
  induction l generalizing s with
  | nil => exact ⟨rfl, rfl⟩
  | cons r rest ih =>
    simp only [List.foldl_cons]
    exact ih (installIntercept r s)

/-- After the global beforeEach hook, cookies and localStorage are empty and
exactly the default intercepts are installed. -/
theorem runGlobalBeforeEach_clean (s : BrowserState) :
    (runGlobalBeforeEach (startTestState s)).cookies = [] ∧
    (runGlobalBeforeEach (startTestState s)).localStorageEntries = [] ∧
    (runGlobalBeforeEach (startTestState s)).interceptRules = defaultIntercepts.reverse := by
  unfold runGlobalBeforeEach globalBeforeEachSteps
  simp only [List.foldl_cons, List.foldl_nil, execHookStep, setupInterceptsCmd]
  refine ⟨?_, ?_, ?_⟩
  · rw [(foldl_install_cookies defaultIntercepts _).1]
    rfl
  · rw [(foldl_install_cookies defaultIntercepts _).2]
    rfl
  · rw [foldl_install_rules]
    simp [clearLocalStorageCmd, clearCookiesCmd, startTestState]

/-- Claim C4: the global beforeEach hook consists, in order, of clearing all
cookies, clearing all localStorage and installing the default network
intercepts, and every test of a suite run therefore starts in a state with
no cookies, no localStorage entries and exactly the default intercepts
installed, regardless of what earlier test bodies did. -/
theorem global_beforeEach_isolates_every_test
    (tests : List (BrowserState → BrowserState)) (s0 : BrowserState)
    (st : BrowserState) (hst : st ∈ statesSeenByTests tests s0) :
    globalBeforeEachSteps =
      [HookStep.clearCookiesStep, HookStep.clearLocalStorageStep,
       HookStep.setupInterceptsStep] ∧
    st.cookies = [] ∧ st.localStorageEntries = [] ∧
    st.interceptRules = defaultIntercepts.reverse := by
  induction tests generalizing s0 with
  | nil => simp [statesSeenByTests] at hst
  | cons t rest ih =>
    simp only [statesSeenByTests, List.mem_cons] at hst
    rcases hst with rfl | hst
    · obtain ⟨hc, hl, hi⟩ := runGlobalBeforeEach_clean s0
      exact ⟨rfl, hc, hl, hi⟩
    · exact ih _ hst

/-- Witness for C4: a suite of one cookie-writing test, started from a dirty
browser state. -/
theorem global_beforeEach_isolates_witness :
    globalBeforeEachSteps =
      [HookStep.clearCookiesStep, HookStep.clearLocalStorageStep,
       HookStep.setupInterceptsStep] ∧
    (runGlobalBeforeEach (startTestState ⟨[("sid", "stale")], [("theme", "dark")], []⟩)).cookies = [] ∧
    (runGlobalBeforeEach (startTestState ⟨[("sid", "stale")], [("theme", "dark")], []⟩)).localStorageEntries = [] ∧
    (runGlobalBeforeEach (startTestState ⟨[("sid", "stale")], [("theme", "dark")], []⟩)).interceptRules = defaultIntercepts.reverse :=
  global_beforeEach_isolates_every_test
    [fun s => { s with cookies := [("sid", "fresh")] }]
    ⟨[("sid", "stale")], [("theme", "dark")], []⟩ _ (by simp [statesSeenByTests])

-- ===========================================================================
-- C5: routing of requests against the installed default intercepts
-- ===========================================================================

/-- The answer to one outgoing network request. -/
inductive RouteResult where
  | stubbed (resp : StaticResponse)
  | forwardedToNetwork
  deriving DecidableEq, Repr

/-- Whether an installed rule's glob pattern matches a request URL. -/
def ruleMatches (r : InterceptRule) (url : String) : Bool :=
  globMatch r.pattern.toList url.toList

/-- Route one outgoing request against the installed rules: the most
recently installed matching rule (the first one in the list, since newer
rules sit at the head) answers with its static response; with no matching
rule the request is forwarded to the real endpoint. -/
def routeRequest (rules : List InterceptRule) (url : String) : RouteResult :=
  match rules.find? (fun r => ruleMatches r url) with
  | some r => RouteResult.stubbed r.response
  | none => RouteResult.forwardedToNetwork

/-- find? succeeds whenever some list member satisfies the predicate. -/
theorem find?_isSome_of_mem {α : Type} (p : α → Bool) (l : List α) (x : α)
    (hx : x ∈ l) (hpx : p x = true) : ∃ y, l.find? p = some y := by
  induction l with
  | nil => cases hx
  | cons a rest ih =>
    by_cases ha : p a = true
    · exact ⟨a, List.find?_cons_of_pos rest ha⟩
    · rcases List.mem_cons.mp hx with rfl | hx2
      · exact absurd hpx ha
      · rcases ih hx2 with ⟨y, hy⟩
        rw [List.find?_cons_of_neg rest (by simpa using ha)]
        exact ⟨y, hy⟩

/-- Claim C5: once the default intercepts are installed (the state
established by the global beforeEach hook, whose route list is
defaultIntercepts.reverse), every request whose URL matches one of the
analytics/third-party patterns is answered by a stub with status 200 and an
empty body, and is never forwarded to the real endpoint. -/
theorem default_intercepts_stub_all_matching (url : String)
    (hmatch : ∃ r ∈ defaultIntercepts, ruleMatches r url = true) :
    ∃ resp, routeRequest defaultIntercepts.reverse url = RouteResult.stubbed resp ∧
      resp.statusCode = 200 ∧ resp.body.isEmpty = true ∧
      routeRequest defaultIntercepts.reverse url ≠ RouteResult.forwardedToNetwork := by
  obtain ⟨r, hmem, hm⟩ := hmatch
  obtain ⟨y, hy⟩ := find?_isSome_of_mem (fun q => ruleMatches q url)
    defaultIntercepts.reverse r (List.mem_reverse.mpr hmem) hm
  have hymem : y ∈ defaultIntercepts :=
    List.mem_reverse.mp (List.mem_of_find?_eq_some hy)
  have hall : ∀ q ∈ defaultIntercepts,
      q.response.statusCode = 200 ∧ q.response.body.isEmpty = true := by decide
  obtain ⟨h200, hempty⟩ := hall y hymem
  refine ⟨y.response, ?_, h200, hempty, ?_⟩
  · unfold routeRequest
    rw [hy]
  · unfold routeRequest
    rw [hy]
    simp

/-- Witness for C5: a first-party analytics request URL that matches the
pattern of the first default intercept. -/
theorem default_intercepts_stub_witness :
    ∃ resp,
      routeRequest defaultIntercepts.reverse "https://www.fyul.com/analytics/collect" =
        RouteResult.stubbed resp ∧
      resp.statusCode = 200 ∧ resp.body.isEmpty = true ∧
      routeRequest defaultIntercepts.reverse "https://www.fyul.com/analytics/collect" ≠
        RouteResult.forwardedToNetwork :=
  default_intercepts_stub_all_matching "https://www.fyul.com/analytics/collect" (by decide)

-- ===========================================================================
-- C9: cy.visualSnapshot (cypress/support/visual.ts)
-- ===========================================================================

/-- A primitive JavaScript value held by a Cypress environment variable. -/
inductive JSPrim where
  | undefinedVal
  | nullVal
  | boolVal (b : Bool)
  | numVal (n : Int)
  | strVal (s : String)
  deriving DecidableEq, Repr

/-- JavaScript truthiness of a primitive value. -/
def JSPrim.truthy : JSPrim → Bool
  | JSPrim.undefinedVal => false
  | JSPrim.nullVal => false
  | JSPrim.boolVal b => b
  | JSPrim.numVal n => n != 0
  | JSPrim.strVal s => s != ""

/-- Cypress.env(name): the stored value, or undefined when the variable was
never set. -/
def cypressEnvGet (env : List (String × JSPrim)) (name : String) : JSPrim :=
  match assocLookup env name with
  | some v => v
  | none => JSPrim.undefinedVal

/-- A Cypress environment variable counts as set when reading it does not
give undefined. -/
def cypressEnvIsSet (env : List (String × JSPrim)) (name : String) : Bool :=
  cypressEnvGet env name != JSPrim.undefinedVal

/-- cypress/support/visual.ts lines 39-46, cy.visualSnapshot: when
Cypress.env('PERCY_TOKEN') or Cypress.env('visual') is truthy, call
cy.percySnapshot with the given name; otherwise only log a skip message. -/
def visualSnapshot (env : List (String × JSPrim)) (name : String) : List CyEvent :=
  if (cypressEnvGet env "PERCY_TOKEN").truthy || (cypressEnvGet env "visual").truthy then
    [CyEvent.percySnapshot name]
  else
    [CyEvent.cyLog ("[Visual] Skipped snapshot: " ++ name ++ " (Percy not configured)")]

/-- Claim C9 counterexample: with the visual environment variable SET to the
value false (which Cypress produces for CYPRESS_visual=false), the variable
is set but not truthy, so the command only logs a skip and takes no
snapshot, contradicting the claimed snapshot-iff-set equivalence. -/
theorem visualSnapshot_set_but_falsy_skips :
    cypressEnvIsSet [("visual", JSPrim.boolVal false)] "visual" = true ∧
    visualSnapshot [("visual", JSPrim.boolVal false)] "home" =
      [CyEvent.cyLog "[Visual] Skipped snapshot: home (Percy not configured)"] ∧
    CyEvent.percySnapshot "home" ∉ visualSnapshot [("visual", JSPrim.boolVal false)] "home" := by
  decide

/-- Claim C9, amended: cy.visualSnapshot takes a Percy snapshot exactly when
PERCY_TOKEN or visual is set to a truthy value; whenever neither is truthy
(in particular whenever neither is set at all) the command only logs a skip
message, performs no snapshot, and issues no event that could fail the
test. -/
theorem visualSnapshot_behaviour (env : List (String × JSPrim)) (name : String) :
    (CyEvent.percySnapshot name ∈ visualSnapshot env name ↔
      ((cypressEnvGet env "PERCY_TOKEN").truthy ||
        (cypressEnvGet env "visual").truthy) = true) ∧
    (((cypressEnvGet env "PERCY_TOKEN").truthy ||
        (cypressEnvGet env "visual").truthy) = false →
      visualSnapshot env name =
        [CyEvent.cyLog ("[Visual] Skipped snapshot: " ++ name ++ " (Percy not configured)")] ∧
      ∀ e ∈ visualSnapshot env name, e.isFailure = false) := by
  unfold visualSnapshot
  cases h : (cypressEnvGet env "PERCY_TOKEN").truthy || (cypressEnvGet env "visual").truthy <;>
    simp [h, CyEvent.isFailure]

/-- Witness for the amended C9: with no environment variables set, the
command only logs the skip message. -/
theorem visualSnapshot_behaviour_witness :
    visualSnapshot [] "home" =
      [CyEvent.cyLog "[Visual] Skipped snapshot: home (Percy not configured)"] := by
  have h := (visualSnapshot_behaviour [] "home").2 (by decide)
  exact h.1.trans (by decide)

-- ===========================================================================
-- C3: page-object methods (cypress/pages: BasePage.ts, HomePage.ts,
-- HomePage.js, AboutPage.ts, AboutPage.js, LeadershipPage.ts,
-- LeadershipPage.js, PrivacyPolicyPage.ts)
-- ===========================================================================

/-- The pageTitle of a page object extending BasePage: a plain string
asserted with should('include', ...) or a regular expression asserted with
should('match', ...). -/
inductive PageTitle where
  | titleString (s : String)
  | titleRegex (pat : String)
  deriving DecidableEq, Repr

/-- The two abstract properties every BasePage subclass provides. -/
structure PageObjectConfig where
  path : String
  pageTitle : PageTitle
  deriving DecidableEq, Repr

/-- AboutPage.ts: path '/about', title pattern About|FYUL. -/
def aboutPageConfig : PageObjectConfig := ⟨"/about", PageTitle.titleRegex "About|FYUL"⟩

/-- LeadershipPage.ts: path '/leadership', title pattern Leadership|FYUL. -/
def leadershipPageConfig : PageObjectConfig :=
  ⟨"/leadership", PageTitle.titleRegex "Leadership|FYUL"⟩

/-- PrivacyPolicyPage.ts: path '/privacy-policy', title pattern
Privacy|FYUL. -/
def privacyPageConfig : PageObjectConfig :=
  ⟨"/privacy-policy", PageTitle.titleRegex "Privacy|FYUL"⟩

/-- The urls entry of the fixture. -/
structure FixtureUrls where
  base : String
  home : String
  about : String
  leadership : String
  privacyPolicy : String
  careers : String
  deriving DecidableEq, Repr

/-- One brand entry of the fixture. -/
structure BrandEntry where
  name : String
  url : String
  description : String
  deriving DecidableEq, Repr

/-- The brands entry of the fixture. -/
structure FixtureBrands where
  printify : BrandEntry
  printful : BrandEntry
  snowCommerce : BrandEntry
  deriving DecidableEq, Repr

/-- The navigation entry of the fixture. -/
structure FixtureNavigation where
  mainLinks : List String
  footerLinks : List String
  deriving DecidableEq, Repr

/-- One named viewport of the fixture. -/
structure ViewportEntry where
  width : Nat
  height : Nat
  name : String
  deriving DecidableEq, Repr

/-- The seo entry of the fixture. -/
structure FixtureSeo where
  expectedMetaTags : List String
  minTitleLength : Nat
  maxTitleLength : Nat
  minDescriptionLength : Nat
  maxDescriptionLength : Nat
  deriving DecidableEq, Repr

/-- The performance entry of the fixture. -/
structure FixturePerformance where
  maxPageLoadTime : Nat
  maxTimeToInteractive : Nat
  maxResourceLoadTime : Nat
  deriving DecidableEq, Repr

/-- The messages entry of the fixture. -/
structure FixtureMessages where
  pageLoadFailed : String
  elementNotFound : String
  navigationFailed : String
  testPassed : String
  deriving DecidableEq, Repr

/-- The whole fixture object exported by testData.js.  The testUsers entry
is an empty object in the source and is omitted. -/
structure TestDataFixture where
  urls : FixtureUrls
  brands : FixtureBrands
  navigation : FixtureNavigation
  viewports : List (String × ViewportEntry)
  seo : FixtureSeo
  performance : FixturePerformance
  messages : FixtureMessages
  deriving DecidableEq, Repr

/-- cypress/fixtures/testData.js lines 6-76: the exported fixture value. -/
def testData : TestDataFixture :=
  { urls :=
      { base := "https://www.fyul.com"
        home := "/"
        about := "/about"
        leadership := "/leadership"
        privacyPolicy := "/privacy-policy"
        careers := "https://careers.fyul.com" }
    brands :=
      { printify := ⟨"Printify", "https://printify.com", "Print on Demand"⟩
        printful := ⟨"Printful", "https://www.printful.com", "premium print-on-demand"⟩
        snowCommerce := ⟨"Snow Commerce", "https://www.snowcommerce.com", "full-service eCommerce"⟩ }
    navigation :=
      { mainLinks := ["About", "Leadership", "Careers"]
        footerLinks := ["About", "Leadership", "Careers", "Privacy Policy"] }
    viewports :=
      [("mobile", ⟨375, 667, "iPhone SE"⟩),
       ("tablet", ⟨768, 1024, "iPad"⟩),
       ("desktop", ⟨1920, 1080, "Desktop HD"⟩),
       ("desktopLarge", ⟨2560, 1440, "Desktop 2K"⟩),
       ("mobile375", ⟨375, 812, "iPhone X"⟩),
       ("mobile414", ⟨414, 896, "iPhone XR"⟩)]
    seo :=
      { expectedMetaTags := ["description", "viewport"]
        minTitleLength := 10
        maxTitleLength := 70
        minDescriptionLength := 50
        maxDescriptionLength := 160 }
    performance :=
      { maxPageLoadTime := 10000
        maxTimeToInteractive := 5000
        maxResourceLoadTime := 3000 }
    messages :=
      { pageLoadFailed := "Page failed to load within expected time"
        elementNotFound := "Expected element not found on page"
        navigationFailed := "Navigation to page failed"
        testPassed := "Test completed successfully" } }

/-- The repository operations that consume fixture data: the responsive
spec iterates the viewports to drive cy.viewport, and the home spec reads
page paths, brand names and performance thresholds for its assertions.
Every consumer only reads; each returns the fixture it received together
with the values it derived from it. -/
inductive FixtureConsumer where
  | responsiveViewportLoop
  | homeNavigationChecks
  | homeBrandChecks
  | homePerformanceCheck
  deriving DecidableEq, Repr

/-- Running one fixture-consuming operation. -/
def runFixtureConsumer : FixtureConsumer → TestDataFixture → TestDataFixture × List String
  | FixtureConsumer.responsiveViewportLoop, td =>
    (td, td.viewports.map (fun v =>
      v.1 ++ " " ++ toString v.2.width ++ "x" ++ toString v.2.height))
  | FixtureConsumer.homeNavigationChecks, td =>
    (td, [td.urls.about, td.urls.leadership, td.urls.privacyPolicy])
  | FixtureConsumer.homeBrandChecks, td =>
    (td, [td.brands.printify.name, td.brands.printful.name, td.brands.snowCommerce.name])
  | FixtureConsumer.homePerformanceCheck, td =>
    (td, [toString td.performance.maxPageLoadTime])

/-- Claim C8: the fixture is read-only configuration: its constants are the
claimed ones (base URL https://www.fyul.com, six named viewports, title
length limits 10 and 70), and no fixture-consuming operation of the
repository changes any field of the fixture it is given. -/
theorem fixture_is_readonly_configuration :
    testData.urls.base = "https://www.fyul.com" ∧
    testData.viewports.length = 6 ∧
    testData.seo.minTitleLength = 10 ∧
    testData.seo.maxTitleLength = 70 ∧
    (∀ c : FixtureConsumer, ∀ td : TestDataFixture, (runFixtureConsumer c td).1 = td) := by
  refine ⟨rfl, rfl, rfl, rfl, ?_⟩
  intro c td
  cases c <;> rfl
